import Mathlib

/-!
Verification of the loan approval application (src/app.py) against its
specification: the EMI calculator, the interest-rate model, the scoring and
decision engine, and the CSV schema migrator.

Python floats are modelled as exact rationals (ℚ); every numeric literal in
the source is a short decimal and hence exactly representable.  Python
strings are Lean `String`s; lower-casing is modelled on the ASCII range
(all strings the source matches against are ASCII).  The persisted CSV
store is modelled at the level the code manipulates it: a missing file is
`none`, an existing file is the list of its parsed rows, each row a list of
cell strings, the header first.
-/

namespace LoanApp

/-- Python's `round(x)` for a nonnegative-denominator rational: round half
to even (banker's rounding), which is what `round` does on floats. -/
def roundHalfEven (q : ℚ) : ℤ :=
  if q - (⌊q⌋ : ℚ) < 1/2 then ⌊q⌋
  else if 1/2 < q - (⌊q⌋ : ℚ) then ⌊q⌋ + 1
  else if ⌊q⌋ % 2 = 0 then ⌊q⌋ else ⌊q⌋ + 1

/-- Python's `round(x, 2)` on ℚ. -/
def round2 (q : ℚ) : ℚ := (roundHalfEven (q * 100) : ℚ) / 100

/-- Python's `int(x)` applied to a float: truncation toward zero. -/
def pyInt (q : ℚ) : ℤ := if 0 ≤ q then ⌊q⌋ else ⌈q⌉

/-- ASCII lower-casing of one character; models `str.lower` on the ASCII
strings the source compares against. -/
def lowerChar (c : Char) : Char :=
  if c.isUpper then Char.ofNat (c.toNat + 32) else c

/-- `s.lower()` (ASCII model). -/
def lowerStr (s : String) : String := ⟨s.data.map lowerChar⟩

/-- Contiguous-sublist test on character lists. -/
def isSubstr : List Char → List Char → Bool
  | pat, [] => pat.isEmpty
  | pat, c :: t => pat.isPrefixOf (c :: t) || isSubstr pat t

/-- Python's substring test `pat in s`. -/
def strContains (s pat : String) : Bool := isSubstr pat.data s.data

/-- `LOAN_LIMITS` (src/app.py lines 13-19): maximum amount per loan
category; `LOAN_LIMITS.get(loan_type)` is `none` for unknown categories. -/
def LOAN_LIMITS : String → Option ℚ
  | "Home" => some 5000000
  | "Personal" => some 500000
  | "Car" => some 2000000
  | "Education" => some 2000000
  | "Business" => some 3000000
  | _ => none

/-- `DEFAULT_TENURE_YEARS` (src/app.py line 22). -/
def DEFAULT_TENURE_YEARS : ℚ := 5

/-- Numeric core of `calculate_emi` (src/app.py lines 34-43), after the
`float(...)` coercions of lines 27-32 have succeeded.  `n = int(t * 12)`
truncates toward zero; when the rate is nonzero the amortization formula is
applied and rounded to two decimals. -/
def calculate_emi (principal annual_rate tenure_years : ℚ) : ℚ :=
  let n : ℤ := pyInt (tenure_years * 12)
  if n ≤ 0 then 0
  else
    let r := annual_rate / (12 * 100)
    if r = 0 then round2 (principal / (n : ℚ))
    else round2 (principal * r * (1 + r) ^ n.toNat / ((1 + r) ^ n.toNat - 1))

/-- The `try: float(...)` coercion wrapper of `calculate_emi`
(src/app.py lines 27-32): an argument whose numeric coercion raises
`TypeError`/`ValueError` is modelled as `none`, and any such argument makes
the function return `0.0`. -/
def calculate_emi_coerced (principal annual_rate tenure_years : Option ℚ) : ℚ :=
  match principal, annual_rate, tenure_years with
  | some p, some r, some t => calculate_emi p r t
  | _, _, _ => 0

/-- `base_rates.get(loan_type, 10.0)` (src/app.py lines 48-55). -/
def base_rates : String → ℚ
  | "Home" => 5.2
  | "Personal" => 7.5
  | "Car" => 7.0
  | "Education" => 4.8
  | "Business" => 8.5
  | _ => 10.0

/-- `base_interest_rate` (src/app.py lines 46-67). -/
def base_interest_rate (loan_type : String) (credit_score : ℤ) : ℚ :=
  let rate := base_rates loan_type
  let rate :=
    if 780 ≤ credit_score then rate - 0.7
    else if 730 ≤ credit_score then rate - 0.4
    else if 680 ≤ credit_score then rate - 0.1
    else if credit_score < 600 then rate + 1.0
    else rate
  round2 (max rate 5.0)

/-- Applicant input to `evaluate_application`, already coerced to its
numeric types (the coercions of src/app.py lines 74-78 succeeded). -/
structure Applicant where
  name : String
  age : ℤ
  income : ℚ
  loan_amount : ℚ
  loan_type : String
  employment : String
  existing_debt : ℚ
  tenure_years : ℚ

/-- The `decision_data` dict built by `evaluate_application`
(src/app.py lines 160-176).  The `remarks` strings are pure commentary and
are not modelled. -/
structure DecisionData where
  name : String
  age : ℤ
  income : ℚ
  loan_amount : ℚ
  loan_type : String
  employment : String
  existing_debt : ℚ
  tenure_years : ℚ
  debt_to_income : ℚ
  credit_score : ℤ
  decision : String
  interest_rate : ℚ
  emi : ℚ
  max_allowed : Option ℚ

/-- Category-limit check (src/app.py lines 84-89): `exceeded_limit` is set
exactly when the category is known and the requested amount strictly
exceeds its limit. -/
def exceeded_limit (loan_type : String) (loan_amount : ℚ) : Bool :=
  match LOAN_LIMITS loan_type with
  | some max_allowed => decide (max_allowed < loan_amount)
  | none => false

/-- `debt_to_income` (src/app.py line 93): `(existing_debt / income) * 100`,
and `0` when `income ≤ 0`. -/
def debt_to_income (existing_debt income : ℚ) : ℚ :=
  if 0 < income then existing_debt / income * 100 else 0

/-- DTI contribution to the credit score (src/app.py lines 99-110). -/
def dti_points (d : ℚ) : ℤ :=
  if d < 20 then 80
  else if d < 35 then 40
  else if d < 50 then 10
  else -60

/-- Employment contribution to the credit score (src/app.py lines 113-122):
case-insensitive substring match, first rule wins. -/
def employment_points (employment : String) : ℤ :=
  let emp_lower := lowerStr employment
  if strContains emp_lower "salaried" || strContains emp_lower "employee" then 30
  else if strContains emp_lower "self" then 10
  else if strContains emp_lower "unemployed" then -40
  else 0

/-- Loan-to-income contribution to the credit score
(src/app.py lines 125-130); amounts strictly between 5× and 10× income get
neither bonus nor penalty. -/
def loan_income_points (loan_amount income : ℚ) : ℤ :=
  if loan_amount ≤ income * 5 then 20
  else if income * 10 < loan_amount then -30
  else 0

/-- Age-band contribution to the credit score (src/app.py lines 133-140). -/
def age_points (age : ℤ) : ℤ :=
  if 25 ≤ age ∧ age ≤ 55 then 10
  else if age < 21 then -20
  else if 60 < age then -15
  else 0

/-- The credit score accumulated by src/app.py lines 96-140: base 650 plus
the four additive contributions. -/
def credit_score_of (a : Applicant) : ℤ :=
  650 + dti_points (debt_to_income a.existing_debt a.income)
      + employment_points a.employment
      + loan_income_points a.loan_amount a.income
      + age_points a.age

/-- `evaluate_application` (src/app.py lines 70-177).  `tenure_years` is
replaced by the default when falsy (`0.0`); the decision is `"Rejected"`
when the category limit is exceeded, otherwise `"Approved"` iff the score
is at least 700 and the raw debt-to-income is at most 45; the interest rate
is always computed; the EMI only for approved applications. -/
def evaluate_application (a : Applicant) : DecisionData :=
  let tenure_years := if a.tenure_years = 0 then DEFAULT_TENURE_YEARS else a.tenure_years
  let exceeded := exceeded_limit a.loan_type a.loan_amount
  let dti := debt_to_income a.existing_debt a.income
  let credit_score := credit_score_of a
  let decision :=
    if exceeded then "Rejected"
    else if 700 ≤ credit_score ∧ dti ≤ 45 then "Approved"
    else "Rejected"
  let interest_rate := base_interest_rate a.loan_type credit_score
  let emi := if decision = "Approved"
    then calculate_emi a.loan_amount interest_rate tenure_years else 0
  { name := a.name
    age := a.age
    income := a.income
    loan_amount := a.loan_amount
    loan_type := a.loan_type
    employment := a.employment
    existing_debt := a.existing_debt
    tenure_years := tenure_years
    debt_to_income := round2 dti
    credit_score := credit_score
    decision := decision
    interest_rate := interest_rate
    emi := emi
    max_allowed := LOAN_LIMITS a.loan_type }

/-! ### The CSV schema migrator -/

/-- `NEW_HEADER` (src/app.py lines 180-197). -/
def NEW_HEADER : List String :=
  ["Name", "Age", "Income", "Loan_Amount", "Loan_Type", "Tenure_Years",
   "Employment", "Existing_Debt", "Debt_to_Income", "Credit_Score",
   "InterestRate", "EMI", "Loan_Status", "DateApplied", "Remarks", "Decision"]

/-- The value `csv.DictReader` associates to `key` in a data row read under
`header`: `none` when the key is not a column of the header; `some none`
when the column exists but the row is too short (Python `None`);
`some (some v)` otherwise.  With duplicate column names the last occurrence
wins, as in `dict(zip(header, row))`. -/
def dictGet (header row : List String) (key : String) : Option (Option String) :=
  ((header.enum.map fun p => (p.2, row.get? p.1)).reverse).lookup key

/-- `row.get(key, "")` as written to the new CSV: Python `None` and a
missing key both end up as the empty cell. -/
def getStr (header row : List String) (key : String) : String :=
  match dictGet header row key with
  | some (some s) => s
  | _ => ""

/-- `row.get(key, "") or alt`: an absent, `None` or empty value falls back
to `alt`. -/
def getOr (header row : List String) (key alt : String) : String :=
  let s := getStr header row key
  if s = "" then alt else s

/-- Best-effort model of Python's `float(s)` on a plain decimal string
(optional sign, digits, optional fractional part).  Exotic accepted forms
(exponents, `inf`, `nan`, surrounding whitespace) are not modelled; no
claim depends on them.  `none` models a `ValueError`. -/
def pyFloat : String → Option ℚ := fun s =>
  let sign : ℚ × List Char :=
    match s.data with
    | '-' :: cs => (-1, cs)
    | '+' :: cs => (1, cs)
    | cs => (1, cs)
  let intPart := sign.2.takeWhile Char.isDigit
  let rest := sign.2.dropWhile Char.isDigit
  let natOf : List Char → ℕ := fun l => l.foldl (fun a c => a * 10 + (c.toNat - '0'.toNat)) 0
  match rest with
  | [] => if intPart.isEmpty then none else some (sign.1 * natOf intPart)
  | '.' :: fracPart =>
    if fracPart.all Char.isDigit ∧ ¬(intPart.isEmpty ∧ fracPart.isEmpty) then
      some (sign.1 * (natOf intPart + (natOf fracPart : ℚ) / 10 ^ fracPart.length))
    else none
  | _ => none

/-- The operand of `float(row.get(key) or 0)` (src/app.py lines 224-225):
an absent key, a `None` value or an empty string all become `0`; otherwise
the cell string is parsed, `none` modelling the `ValueError`. -/
def numOperand (header row : List String) (key : String) : Option ℚ :=
  match dictGet header row key with
  | some (some s) => if s = "" then some 0 else pyFloat s
  | _ => some 0

/-- `loan_amount` and `rate` of one legacy row (src/app.py lines 223-228):
if either `float(...)` raises `ValueError`, both fall back to `0`. -/
def migrate_row_amount_rate (header row : List String) : ℚ × ℚ :=
  match numOperand header row "Loan_Amount", numOperand header row "InterestRate" with
  | some loan_amount, some rate => (loan_amount, rate)
  | _, _ => (0, 0)

/-- The `EMI` value backfilled for one legacy row (src/app.py lines
230-231): recomputed from the row's amount and rate with the default
tenure, whatever the row's decision is. -/
def migrate_row_emi (header row : List String) : ℚ :=
  calculate_emi (migrate_row_amount_rate header row).1
    (migrate_row_amount_rate header row).2 DEFAULT_TENURE_YEARS

/-- The `Loan_Status` cell of an upgraded row (src/app.py line 246):
`row.get("Loan_Status", row.get("Decision", ""))`. -/
def migrate_row_status (header row : List String) : String :=
  match dictGet header row "Loan_Status" with
  | some (some s) => s
  | some none => ""
  | none => getStr header row "Decision"

/-- The `Decision` cell of an upgraded row (src/app.py line 249):
`row.get("Decision", row.get("Loan_Status", ""))`. -/
def migrate_row_decision (header row : List String) : String :=
  match dictGet header row "Decision" with
  | some (some s) => s
  | some none => ""
  | none => getStr header row "Loan_Status"

/-- Best-effort rendering of the two-decimal floats the migrator writes
back to the CSV (Python float `repr`).  No claim depends on its output. -/
def qToString (q : ℚ) : String :=
  if q.den = 1 then toString q.num ++ ".0"
  else
    let cents : ℤ := ⌊q * 100⌋
    let ip : ℤ := cents / 100
    let f : ℕ := (cents % 100).natAbs
    if f % 10 = 0 then toString ip ++ "." ++ toString (f / 10)
    else if f < 10 then toString ip ++ ".0" ++ toString f
    else toString ip ++ "." ++ toString f

/-- One legacy row rewritten into the `NEW_HEADER` layout
(src/app.py lines 233-250), cells in `NEW_HEADER` order. -/
def upgrade_row (header row : List String) : List String :=
  [getStr header row "Name",
   getStr header row "Age",
   getStr header row "Income",
   getStr header row "Loan_Amount",
   getStr header row "Loan_Type",
   toString (5 : ℕ),
   getStr header row "Employment",
   getOr header row "Existing_Debt" "0",
   getStr header row "Debt_to_Income",
   getStr header row "Credit_Score",
   getStr header row "InterestRate",
   qToString (migrate_row_emi header row),
   migrate_row_status header row,
   getStr header row "DateApplied",
   getStr header row "Remarks",
   migrate_row_decision header row]

/-- `migrate_csv_if_needed` (src/app.py lines 200-257) as a function on the
store contents.  `none`: the file does not exist (line 202 returns);
`some []`: a zero-byte file, `next(reader)` raises `StopIteration`
(line 210 returns); otherwise the header is inspected and, unless it
already carries a current-layout marker column, the whole store is
rewritten under `NEW_HEADER`.  `csv.DictReader` silently skips blank
rows. -/
def migrate_csv_if_needed (file : Option (List (List String))) :
    Option (List (List String)) :=
  match file with
  | none => none
  | some [] => some []
  | some (header :: rows) =>
    if "Tenure_Years" ∈ header ∨ "EMI" ∈ header then some (header :: rows)
    else some (NEW_HEADER ::
      ((rows.filter fun r => !r.isEmpty).map (upgrade_row header)))

/-! ### Concrete inputs used in the claims -/

/-- The end-to-end example applicant of the spec (§8, property 8). -/
def exampleApplicant : Applicant :=
  { name := "A", age := 30, income := 100000, loan_amount := 400000,
    loan_type := "Personal", employment := "Salaried",
    existing_debt := 10000, tenure_years := 5 }

/-- An applicant over the Home limit (spec §8, property 9). -/
def overLimitApplicant : Applicant :=
  { name := "B", age := 30, income := 100000, loan_amount := 6000000,
    loan_type := "Home", employment := "Salaried",
    existing_debt := 10000, tenure_years := 5 }

/-- An applicant hitting every deduction: DTI 100%, unemployed, amount over
ten times income, under 21. -/
def worstApplicant : Applicant :=
  { name := "C", age := 18, income := 100, loan_amount := 2000,
    loan_type := "Personal", employment := "unemployed",
    existing_debt := 100, tenure_years := 5 }

/-- The column layout predating `Tenure_Years` and `EMI` (spec §6). -/
def legacyHeader : List String :=
  ["Name", "Age", "Income", "Loan_Amount", "Loan_Type", "Employment",
   "Existing_Debt", "Debt_to_Income", "Credit_Score", "InterestRate",
   "Loan_Status", "DateApplied", "Remarks", "Decision"]

/-- A legacy row that was rejected but carries a positive loan amount. -/
def rejectedLegacyRow : List String :=
  ["Bob", "40", "100000", "400000", "Personal", "Salaried", "10000",
   "10.0", "690", "0", "Rejected", "2023-01-01", "", "Rejected"]

/-! ### Helper lemmas on the rounding primitives -/

theorem floor_eq_of {q : ℚ} {m : ℤ} (h1 : (m : ℚ) ≤ q) (h2 : q < m + 1) :
    ⌊q⌋ = m := by
  rw [Int.floor_eq_iff]
  exact ⟨h1, by exact_mod_cast h2⟩

theorem roundHalfEven_of_lt {q : ℚ} {m : ℤ} (h1 : (m : ℚ) ≤ q)
    (h2 : q < m + 1/2) : roundHalfEven q = m := by
  have hf : ⌊q⌋ = m := floor_eq_of h1 (by linarith)
  unfold roundHalfEven
  rw [hf, if_pos (by linarith)]

theorem roundHalfEven_of_gt {q : ℚ} {m : ℤ} (h1 : (m : ℚ) + 1/2 < q)
    (h2 : q < m + 1) : roundHalfEven q = m + 1 := by
  have hf : ⌊q⌋ = m := floor_eq_of (by linarith) h2
  unfold roundHalfEven
  rw [hf, if_neg (by linarith), if_pos (by linarith)]

theorem round2_of_lt {q : ℚ} {m : ℤ} (h1 : (m : ℚ) ≤ q * 100)
    (h2 : q * 100 < m + 1/2) : round2 q = (m : ℚ) / 100 := by
  unfold round2
  rw [roundHalfEven_of_lt h1 h2]

theorem round2_of_gt {q : ℚ} {m : ℤ} (h1 : (m : ℚ) + 1/2 < q * 100)
    (h2 : q * 100 < m + 1) : round2 q = ((m : ℚ) + 1) / 100 := by
  unfold round2
  rw [roundHalfEven_of_gt h1 h2]
  push_cast
  ring

theorem floor_le_roundHalfEven (q : ℚ) : ⌊q⌋ ≤ roundHalfEven q := by
  unfold roundHalfEven
  split_ifs <;> omega

theorem round2_ge_of {q : ℚ} {c : ℤ} (h : (c : ℚ) ≤ q) : (c : ℚ) ≤ round2 q := by
  unfold round2
  have h1 : c * 100 ≤ ⌊q * 100⌋ := Int.le_floor.mpr (by push_cast; linarith)
  have h2 := floor_le_roundHalfEven (q * 100)
  have h3 : ((c * 100 : ℤ) : ℚ) ≤ (roundHalfEven (q * 100) : ℚ) := by
    exact_mod_cast le_trans h1 h2
  rw [le_div_iff₀ (by norm_num)]
  push_cast at h3 ⊢
  linarith

theorem pyInt_of_nonneg {q : ℚ} (h : 0 ≤ q) : pyInt q = ⌊q⌋ := if_pos h

theorem pyInt_nonpos {q : ℚ} (h : ⌊q⌋ ≤ 0) : pyInt q ≤ 0 := by
  unfold pyInt
  split_ifs with h0
  · exact h
  · exact Int.ceil_le.mpr (by exact_mod_cast le_of_not_le h0)

/-! ### C7: the rate model never goes below 5.0 -/

/-- C7: for every loan_type string (known to the base-rate table or not)
and every integer credit score, `base_interest_rate` returns at least 5.0. -/
theorem C7_rate_has_floor (loan_type : String) (credit_score : ℤ) :
    (5 : ℚ) ≤ base_interest_rate loan_type credit_score := by
  simp only [base_interest_rate]
  have h5 : ((5 : ℤ) : ℚ) ≤ max
      (if 780 ≤ credit_score then base_rates loan_type - 0.7
       else if 730 ≤ credit_score then base_rates loan_type - 0.4
       else if 680 ≤ credit_score then base_rates loan_type - 0.1
       else if credit_score < 600 then base_rates loan_type + 1.0
       else base_rates loan_type) 5.0 := by
    refine le_trans ?_ (le_max_right _ _)
    norm_num
  have := round2_ge_of h5
  push_cast at this
  exact this

/-! ### C8 and C9: the EMI calculator -/

/-- C8: the EMI calculator returns 0 whenever `floor(tenure_years * 12)` is
nonpositive (in particular for `tenure_years ≤ 0`), and whenever the numeric
coercion of principal, rate or tenure fails; being a total Lean function it
raises no error. -/
theorem C8_emi_fail_soft :
    (∀ principal annual_rate tenure_years : ℚ, ⌊tenure_years * 12⌋ ≤ 0 →
      calculate_emi principal annual_rate tenure_years = 0) ∧
    (∀ principal annual_rate tenure_years : Option ℚ,
      principal = none ∨ annual_rate = none ∨ tenure_years = none →
      calculate_emi_coerced principal annual_rate tenure_years = 0) := by
  constructor
  · intro principal annual_rate tenure_years h
    simp only [calculate_emi]
    rw [if_pos (pyInt_nonpos h)]
  · rintro principal annual_rate tenure_years (rfl | rfl | rfl)
    · rfl
    · cases principal <;> rfl
    · cases principal <;> cases annual_rate <;> rfl

theorem C8_emi_fail_soft_witness :
    calculate_emi 100000 5 0 = 0 ∧
    calculate_emi_coerced (some 100000) none (some 5) = 0 := by
  constructor
  · refine C8_emi_fail_soft.1 100000 5 0 ?_
    rw [show ((0 : ℚ) * 12) = ((0 : ℤ) : ℚ) by norm_num, Int.floor_intCast]
  · exact C8_emi_fail_soft.2 (some 100000) none (some 5) (Or.inr (Or.inl rfl))

/-- C9: at a zero annual rate and positive tenure with a positive number of
periods, the EMI calculator returns the principal divided by the number of
periods, rounded to two decimals. -/
theorem C9_zero_rate_emi (P T : ℚ) (hP : 0 ≤ P) (hT : 0 < T)
    (hn : 0 < ⌊T * 12⌋) :
    calculate_emi P 0 T = round2 (P / (⌊T * 12⌋ : ℚ)) := by
  have h0 : (0 : ℚ) ≤ T * 12 := by positivity
  simp only [calculate_emi, pyInt_of_nonneg h0]
  rw [if_neg (by omega), if_pos (by norm_num)]

theorem C9_zero_rate_emi_witness :
    calculate_emi 400000 0 5 = round2 (400000 / (⌊(5 : ℚ) * 12⌋ : ℚ)) := by
  have h60 : ⌊(5 : ℚ) * 12⌋ = 60 := by
    rw [show ((5 : ℚ) * 12) = ((60 : ℤ) : ℚ) by norm_num, Int.floor_intCast]
  exact C9_zero_rate_emi 400000 5 (by norm_num) (by norm_num) (by omega)

/-! ### C1 and C3: the decision rule -/

/-- C1: for every well-typed applicant, the decision is `"Approved"` iff
the category limit was not exceeded, the computed credit score is at least
700 and the computed debt-to-income is at most 45, boundaries included. -/
theorem C1_decision_iff (a : Applicant) :
    (evaluate_application a).decision = "Approved" ↔
      (exceeded_limit a.loan_type a.loan_amount = false ∧
       700 ≤ (evaluate_application a).credit_score ∧
       debt_to_income a.existing_debt a.income ≤ 45) := by
  simp only [evaluate_application]
  cases h : exceeded_limit a.loan_type a.loan_amount with
  | true => simp [h]
  | false =>
    simp only [h, Bool.false_eq_true, if_false]
    by_cases hc : 700 ≤ credit_score_of a ∧
        debt_to_income a.existing_debt a.income ≤ 45
    · simp [hc]
    · rw [if_neg hc]
      simp only [true_and]
      constructor
      · intro hs
        exact absurd hs (by simp)
      · intro hs
        exact absurd hs hc

/-- C3: a known category whose limit is strictly exceeded forces rejection
whatever the other attributes are, with a zero EMI and the interest rate
still produced by the rate model at the computed score. -/
theorem C3_over_limit_rejected (a : Applicant) (m : ℚ)
    (h1 : LOAN_LIMITS a.loan_type = some m) (h2 : m < a.loan_amount) :
    (evaluate_application a).decision = "Rejected" ∧
    (evaluate_application a).emi = 0 ∧
    (evaluate_application a).interest_rate =
      base_interest_rate a.loan_type ((evaluate_application a).credit_score) := by
  have hex : exceeded_limit a.loan_type a.loan_amount = true := by
    unfold exceeded_limit
    rw [h1]
    exact decide_eq_true h2
  simp only [evaluate_application, hex, if_true]
  refine ⟨trivial, ?_, trivial⟩
  rw [if_neg (by simp)]

theorem C3_over_limit_rejected_witness :
    (evaluate_application overLimitApplicant).decision = "Rejected" ∧
    (evaluate_application overLimitApplicant).emi = 0 ∧
    (evaluate_application overLimitApplicant).interest_rate =
      base_interest_rate overLimitApplicant.loan_type
        ((evaluate_application overLimitApplicant).credit_score) :=
  C3_over_limit_rejected overLimitApplicant 5000000 rfl
    (by norm_num [overLimitApplicant])

/-! ### C10: range of the credit score -/

theorem dti_points_bounds (d : ℚ) : -60 ≤ dti_points d ∧ dti_points d ≤ 80 := by
  unfold dti_points
  split_ifs <;> omega

theorem employment_points_bounds (employment : String) :
    -40 ≤ employment_points employment ∧ employment_points employment ≤ 30 := by
  simp only [employment_points]
  split_ifs <;> omega

theorem loan_income_points_bounds (loan_amount income : ℚ) :
    -30 ≤ loan_income_points loan_amount income ∧
    loan_income_points loan_amount income ≤ 20 := by
  unfold loan_income_points
  split_ifs <;> omega

theorem age_points_bounds (age : ℤ) :
    -20 ≤ age_points age ∧ age_points age ≤ 10 := by
  unfold age_points
  split_ifs <;> omega

theorem worst_score : credit_score_of worstApplicant = 500 := by
  have h1 : debt_to_income (100 : ℚ) 100 = 100 := by
    norm_num [debt_to_income]
  have h2 : dti_points 100 = -60 := by
    norm_num [dti_points]
  have h3 : employment_points "unemployed" = -40 := by decide
  have h4 : loan_income_points 2000 100 = -30 := by
    norm_num [loan_income_points]
  have h5 : age_points 18 = -20 := by
    norm_num [age_points]
  simp only [credit_score_of, worstApplicant, h1, h2, h3, h4, h5]
  omega

theorem example_score : credit_score_of exampleApplicant = 790 := by
  have h1 : debt_to_income (10000 : ℚ) 100000 = 10 := by
    norm_num [debt_to_income]
  have h2 : dti_points 10 = 80 := by
    norm_num [dti_points]
  have h3 : employment_points "Salaried" = 30 := by decide
  have h4 : loan_income_points 400000 100000 = 20 := by
    norm_num [loan_income_points]
  have h5 : age_points 30 = 10 := by
    norm_num [age_points]
  simp only [credit_score_of, exampleApplicant, h1, h2, h3, h4, h5]
  omega

/-- C10: every computed credit score lies in [500, 790], and both bounds
are attained. -/
theorem C10_score_range :
    (∀ a : Applicant, 500 ≤ (evaluate_application a).credit_score ∧
      (evaluate_application a).credit_score ≤ 790) ∧
    (∃ a : Applicant, (evaluate_application a).credit_score = 500) ∧
    (∃ a : Applicant, (evaluate_application a).credit_score = 790) := by
  refine ⟨?_, ⟨worstApplicant, ?_⟩, ⟨exampleApplicant, ?_⟩⟩
  · intro a
    simp only [evaluate_application, credit_score_of]
    have h1 := dti_points_bounds (debt_to_income a.existing_debt a.income)
    have h2 := employment_points_bounds a.employment
    have h3 := loan_income_points_bounds a.loan_amount a.income
    have h4 := age_points_bounds a.age
    omega
  · simp only [evaluate_application]
    exact worst_score
  · simp only [evaluate_application]
    exact example_score

/-! ### C6: the end-to-end example -/

theorem example_rate : base_interest_rate "Personal" 790 = 6.8 := by
  simp only [base_interest_rate]
  rw [if_pos (by norm_num : (780 : ℤ) ≤ 790)]
  have hb : base_rates "Personal" = 7.5 := rfl
  rw [hb, max_eq_left (by norm_num)]
  rw [round2_of_lt (m := 680) (by norm_num) (by norm_num)]
  norm_num

/-- C6: the spec's worked example — DTI 10, credit score 790, decision
Approved, interest rate 6.8, EMI the EMI calculator at (400000, 6.8, 5). -/
theorem C6_example_end_to_end :
    (evaluate_application exampleApplicant).debt_to_income = 10 ∧
    (evaluate_application exampleApplicant).credit_score = 790 ∧
    (evaluate_application exampleApplicant).decision = "Approved" ∧
    (evaluate_application exampleApplicant).interest_rate = 6.8 ∧
    (evaluate_application exampleApplicant).emi = calculate_emi 400000 6.8 5 := by
  have hdti : debt_to_income (10000 : ℚ) 100000 = 10 := by
    norm_num [debt_to_income]
  have hex : exceeded_limit "Personal" (400000 : ℚ) = false := by
    unfold exceeded_limit
    rw [show LOAN_LIMITS "Personal" = some 500000 from rfl]
    exact decide_eq_false (by norm_num)
  have hdec : ((if (700 : ℤ) ≤ 790 ∧ (10 : ℚ) ≤ 45 then "Approved"
      else "Rejected") : String) = "Approved" :=
    if_pos (by norm_num)
  have hp1 : exampleApplicant.existing_debt = 10000 := rfl
  have hp2 : exampleApplicant.income = 100000 := rfl
  have hp3 : exampleApplicant.loan_type = "Personal" := rfl
  have hp4 : exampleApplicant.loan_amount = 400000 := rfl
  have hp5 : exampleApplicant.tenure_years = 5 := rfl
  simp only [evaluate_application, hp1, hp2, hp3, hp4, hp5, example_score,
    hdti, hex, Bool.false_eq_true, if_false, hdec, example_rate]
  refine ⟨?_, ?_⟩
  · rw [round2_of_lt (m := 1000) (by norm_num) (by norm_num)]
    norm_num
  · simp

/-! ### C4 and C5: the schema migrator on whole stores -/

theorem migrate_marker_noop (header : List String) (rows : List (List String))
    (h : "Tenure_Years" ∈ header ∨ "EMI" ∈ header) :
    migrate_csv_if_needed (some (header :: rows)) = some (header :: rows) := by
  simp only [migrate_csv_if_needed]
  rw [if_pos h]

theorem tenure_mem_new_header : "Tenure_Years" ∈ NEW_HEADER := by decide

/-- C4: migration is idempotent — a second run returns the store exactly as
the first run left it — and a store whose header already carries a marker
column is left untouched. -/
theorem C4_migration_idempotent :
    (∀ file, migrate_csv_if_needed (migrate_csv_if_needed file) =
      migrate_csv_if_needed file) ∧
    (∀ header rows, ("Tenure_Years" ∈ header ∨ "EMI" ∈ header) →
      migrate_csv_if_needed (some (header :: rows)) = some (header :: rows)) := by
  constructor
  · intro file
    match file with
    | none => rfl
    | some [] => rfl
    | some (header :: rows) =>
      by_cases h : "Tenure_Years" ∈ header ∨ "EMI" ∈ header
      · rw [migrate_marker_noop header rows h]
        exact migrate_marker_noop header rows h
      · simp only [migrate_csv_if_needed]
        rw [if_neg h]
        exact migrate_marker_noop _ _ (Or.inl tenure_mem_new_header)
  · exact fun header rows h => migrate_marker_noop header rows h

theorem C4_migration_idempotent_witness :
    migrate_csv_if_needed (some [NEW_HEADER]) = some [NEW_HEADER] :=
  C4_migration_idempotent.2 NEW_HEADER [] (Or.inl (by decide))

/-- C5 as stated is false: a legacy header-only store is rewritten, not
left byte-identical. -/
theorem C5_counterexample :
    migrate_csv_if_needed (some [legacyHeader]) ≠ some [legacyHeader] := by
  have h : migrate_csv_if_needed (some [legacyHeader]) = some [NEW_HEADER] := by
    simp only [migrate_csv_if_needed]
    rw [if_neg (by decide)]
    rfl
  rw [h]
  decide

/-- C5 amended: a missing file, a zero-byte file and a header-only store
whose header carries a marker column are left unchanged; a legacy
header-only store is rewritten to just the current header. -/
theorem C5_empty_store :
    migrate_csv_if_needed none = none ∧
    migrate_csv_if_needed (some []) = some [] ∧
    (∀ header, ("Tenure_Years" ∈ header ∨ "EMI" ∈ header) →
      migrate_csv_if_needed (some [header]) = some [header]) ∧
    (∀ header, ¬("Tenure_Years" ∈ header ∨ "EMI" ∈ header) →
      migrate_csv_if_needed (some [header]) = some [NEW_HEADER]) := by
  refine ⟨rfl, rfl, fun header h => migrate_marker_noop header [] h,
    fun header h => ?_⟩
  simp only [migrate_csv_if_needed]
  rw [if_neg h]
  rfl

theorem C5_empty_store_witness :
    migrate_csv_if_needed (some [NEW_HEADER]) = some [NEW_HEADER] ∧
    migrate_csv_if_needed (some [legacyHeader]) = some [NEW_HEADER] :=
  ⟨C5_empty_store.2.2.1 NEW_HEADER (Or.inl (by decide)),
   C5_empty_store.2.2.2 legacyHeader (by decide)⟩

/-! ### C2: the emi/decision invariant -/

theorem pyInt_five_years : pyInt ((5 : ℚ) * 12) = 60 := by
  rw [pyInt_of_nonneg (by norm_num),
    show ((5 : ℚ) * 12) = ((60 : ℤ) : ℚ) by norm_num, Int.floor_intCast]

theorem emi_400000_zero_rate : calculate_emi 400000 0 5 = 6666.67 := by
  simp only [calculate_emi, pyInt_five_years]
  rw [if_neg (by omega), if_pos (by norm_num)]
  rw [round2_of_gt (m := 666666) (by norm_num) (by norm_num)]
  norm_num

theorem rejected_row_amount_rate :
    migrate_row_amount_rate legacyHeader rejectedLegacyRow = (400000, 0) := by
  have h1 : dictGet legacyHeader rejectedLegacyRow "Loan_Amount" =
      some (some "400000") := by decide
  have h2 : dictGet legacyHeader rejectedLegacyRow "InterestRate" =
      some (some "0") := by decide
  have h3 : pyFloat "400000" = some ((1 : ℚ) * ((400000 : ℕ) : ℚ)) := rfl
  have h4 : pyFloat "0" = some ((1 : ℚ) * ((0 : ℕ) : ℚ)) := rfl
  have h5 : numOperand legacyHeader rejectedLegacyRow "Loan_Amount" =
      some 400000 := by
    simp only [numOperand, h1]
    rw [if_neg (by decide : ¬("400000" = "")), h3]
    norm_num
  have h6 : numOperand legacyHeader rejectedLegacyRow "InterestRate" =
      some 0 := by
    simp only [numOperand, h2]
    rw [if_neg (by decide : ¬("0" = "")), h4]
    norm_num
  simp only [migrate_row_amount_rate, h5, h6]

theorem rejected_row_emi :
    migrate_row_emi legacyHeader rejectedLegacyRow = 6666.67 := by
  simp only [migrate_row_emi, rejected_row_amount_rate]
  exact emi_400000_zero_rate

/-- C2 as stated is false for migrated rows: the migrator recomputes a
positive EMI for a legacy row whose decision is `"Rejected"`. -/
theorem C2_counterexample :
    migrate_csv_if_needed (some [legacyHeader, rejectedLegacyRow]) =
      some [NEW_HEADER, upgrade_row legacyHeader rejectedLegacyRow] ∧
    migrate_row_decision legacyHeader rejectedLegacyRow = "Rejected" ∧
    migrate_row_emi legacyHeader rejectedLegacyRow ≠ 0 := by
  refine ⟨?_, by decide, ?_⟩
  · simp only [migrate_csv_if_needed]
    rw [if_neg (by decide)]
    rfl
  · rw [rejected_row_emi]
    norm_num

/-- C2 amended: every record produced by the scoring and decision engine
has a zero EMI unless it is approved (the migrator's backfilled rows do not
satisfy the invariant). -/
theorem C2_engine_emi_invariant (a : Applicant)
    (h : (evaluate_application a).decision ≠ "Approved") :
    (evaluate_application a).emi = 0 := by
  simp only [evaluate_application] at h ⊢
  rw [if_neg h]

theorem C2_engine_emi_invariant_witness :
    (evaluate_application worstApplicant).emi = 0 := by
  apply C2_engine_emi_invariant
  have hex : exceeded_limit "Personal" (2000 : ℚ) = false := by
    unfold exceeded_limit
    rw [show LOAN_LIMITS "Personal" = some 500000 from rfl]
    exact decide_eq_false (by norm_num)
  have hp3 : worstApplicant.loan_type = "Personal" := rfl
  have hp4 : worstApplicant.loan_amount = 2000 := rfl
  simp only [evaluate_application, hp3, hp4, hex, Bool.false_eq_true,
    if_false, worst_score]
  rw [if_neg (by norm_num)]
  simp

end LoanApp
